import Mathlib

/-!
Shallow embedding of the Envio-Correos contact backend.

The repository exposes one contact endpoint in two variants:
* a synchronous Django REST Framework class-based view
  (`contact/views.py`, class `ContactAPIView`), and
* a deferred FastAPI route with background tasks and a slowapi rate
  limiter (`contact/routes.py`, function `contact`; limiter configured in
  `config/throttle.py` and wired in `config/asgi.py`).

Emails are modelled as trace events (`SendCall`); the mail transport is a
parameter `mailer : SendCall → Except String Unit` so that transport
failures are explicit values rather than exceptions.
-/

/-- Raw request payload: each of the five contact-form fields is either
absent (`none`) or present with a string value (`some s`).  JSON numbers
are coerced to strings by both validators, so string values suffice. -/
structure Payload where
  name : Option String
  apellido : Option String
  email : Option String
  phone : Option String
  message : Option String
deriving DecidableEq

/-- Validated contact data, the analogue of `serializer.validated_data`
in `views.py` and of the `Contact` pydantic instance in `routes.py`. -/
structure ValidContact where
  name : String
  apellido : String
  email : String
  phone : String
  message : String
deriving DecidableEq

/-- One invocation of the mail-sending facility, recording the arguments
that `envio_email` passes to the Django mail API. -/
structure SendCall where
  subject : String
  body : String
  fromEmail : String
  recipients : List String
  html : Bool
deriving DecidableEq

/-- Modelled from the spec: the email grammar is enforced by external
validators (pydantic `EmailStr` in `routes.py`, the email field of the
absent `contact/serializers.py`), which are outside this repository.
Per the spec the address must satisfy a standard email-address grammar:
one at-sign separating a non-empty local part from a domain that contains
an interior dot, with no spaces. -/
def isValidEmail (s : String) : Bool :=
  let cs := s.data
  let loc := cs.takeWhile (· != '@')
  match cs.dropWhile (· != '@') with
  | '@' :: domain =>
      !loc.isEmpty && !domain.isEmpty && domain.all (· != '@') &&
      domain.contains '.' && domain.head? != some '.' &&
      domain.getLast? != some '.' && !cs.contains ' '
  | _ => false

/-- Field-by-field validation errors of the pydantic model `Contact` in
`contact/routes.py`: every field is required, `name`, `apellido`, `phone`
and `message` are plain `str` (any string, including the empty string, is
accepted), and `email` is `EmailStr`. -/
def pydanticFieldErrors (p : Payload) : List (String × String) :=
  (match p.name with
   | none => [("name", "field required")]
   | some _ => []) ++
  (match p.apellido with
   | none => [("apellido", "field required")]
   | some _ => []) ++
  (match p.email with
   | none => [("email", "field required")]
   | some e => if isValidEmail e then [] else
      [("email", "value is not a valid email address")]) ++
  (match p.phone with
   | none => [("phone", "field required")]
   | some _ => []) ++
  (match p.message with
   | none => [("message", "field required")]
   | some _ => [])

/-- Validation by the pydantic model `Contact` (`contact/routes.py`):
succeeds exactly when no field error arises, yielding the field values. -/
def Contact_validate (p : Payload) : Except (List (String × String)) ValidContact :=
  if pydanticFieldErrors p = [] then
    .ok ⟨p.name.getD "", p.apellido.getD "", p.email.getD "",
         p.phone.getD "", p.message.getD ""⟩
  else .error (pydanticFieldErrors p)

/-- Modelled from the spec: `contact/serializers.py` (class
`ContactSerializer`, imported by `contact/views.py`) is not under src/;
per the spec every one of the five fields is a required, non-empty value
and the email field must satisfy the email grammar.  Error messages
follow the Django REST Framework defaults for required, blank and
invalid-email failures. -/
def serializerFieldErrors (p : Payload) : List (String × String) :=
  (match p.name with
   | none => [("name", "This field is required.")]
   | some s => if s = "" then [("name", "This field may not be blank.")] else []) ++
  (match p.apellido with
   | none => [("apellido", "This field is required.")]
   | some s => if s = "" then [("apellido", "This field may not be blank.")] else []) ++
  (match p.email with
   | none => [("email", "This field is required.")]
   | some s =>
      if s = "" then [("email", "This field may not be blank.")]
      else if isValidEmail s then [] else [("email", "Enter a valid email address.")]) ++
  (match p.phone with
   | none => [("phone", "This field is required.")]
   | some s => if s = "" then [("phone", "This field may not be blank.")] else []) ++
  (match p.message with
   | none => [("message", "This field is required.")]
   | some s => if s = "" then [("message", "This field may not be blank.")] else [])

/-- Modelled from the spec: validation by the absent `ContactSerializer`
(`serializer.is_valid()` plus `serializer.validated_data` in
`contact/views.py`), succeeding exactly when no field error arises. -/
def ContactSerializer_validate (p : Payload) :
    Except (List (String × String)) ValidContact :=
  if serializerFieldErrors p = [] then
    .ok ⟨p.name.getD "", p.apellido.getD "", p.email.getD "",
         p.phone.getD "", p.message.getD ""⟩
  else .error (serializerFieldErrors p)

/-- Function `envio_email` (identical in `views.py` and `routes.py`): both the
plain-text branch (`send_mail`) and the HTML branch (`EmailMessage`) use
`settings.DEFAULT_FROM_EMAIL` as the From address; the call is recorded
as a trace event. -/
def envio_email (dfe : String) (subject : String) (body : String)
    (recipients : List String) (html : Bool) : SendCall :=
  { subject := subject, body := body, fromEmail := dfe,
    recipients := recipients, html := html }

/-- Modelled from the spec: the HTML template `confirmation_email.html`
is not under src/; per the spec it is rendered with the sender first and
last name to a string.  Its exact content is irrelevant to every claim. -/
def render_confirmation (name apellido : String) : String :=
  "<html><body>" ++ name ++ " " ++ apellido ++ "</body></html>"

/-- Function `info_admin` (identical in `views.py` and `routes.py`): plain-text
notification to the configured administrator address, which is
`settings.DEFAULT_FROM_EMAIL` itself. -/
def info_admin (dfe : String) (name apellido email phone message : String) : SendCall :=
  envio_email dfe "Nuevo mensaje de contacto"
    ("Nombre: " ++ name ++ " " ++ apellido ++ "\n" ++
     "Email: " ++ email ++ "\n" ++
     "Teléfono: " ++ phone ++ "\n\n" ++
     "Mensaje:\n" ++ message)
    [dfe] false

/-- Function `info_remitente` (identical in `views.py` and `routes.py`): HTML
confirmation to the submitter address. -/
def info_remitente (dfe : String) (name apellido recipient_email : String) : SendCall :=
  envio_email dfe "Confirmación de recepción de mensaje"
    (render_confirmation name apellido) [recipient_email] true

/-- The admin notification composed from validated data. -/
def adminCall (dfe : String) (c : ValidContact) : SendCall :=
  info_admin dfe c.name c.apellido c.email c.phone c.message

/-- The sender confirmation composed from validated data. -/
def confCall (dfe : String) (c : ValidContact) : SendCall :=
  info_remitente dfe c.name c.apellido c.email

/-- Responses of the synchronous Django REST Framework view. -/
inductive DjangoResponse where
  | badRequest (errors : List (String × String))
  | serverError (errorMsg : String)
  | created (message : String)
deriving DecidableEq

/-- HTTP status code of a `DjangoResponse`, as set in `views.py`
(`HTTP_400_BAD_REQUEST`, `HTTP_500_INTERNAL_SERVER_ERROR`,
`HTTP_201_CREATED`). -/
def DjangoResponse.status : DjangoResponse → Nat
  | .badRequest _ => 400
  | .serverError _ => 500
  | .created _ => 201

/-- Method `post` of `ContactAPIView` (`contact/views.py`): validate, send the admin
notification, then the sender confirmation; catch any mail exception and
turn it into a 500 response.  Returns the response together with the
ordered list of mailer invocations that were attempted. -/
def ContactAPIView_post (dfe : String) (mailer : SendCall → Except String Unit)
    (p : Payload) : DjangoResponse × List SendCall :=
  match ContactSerializer_validate p with
  | .error errs => (.badRequest errs, [])
  | .ok d =>
    let c1 := adminCall dfe d
    match mailer c1 with
    | .error e => (.serverError ("Error al enviar correo: " ++ e), [c1])
    | .ok _ =>
      let c2 := confCall dfe d
      match mailer c2 with
      | .error e => (.serverError ("Error al enviar correo: " ++ e), [c1, c2])
      | .ok _ => (.created "Correo(s) enviado(s) con éxito", [c1, c2])

/-- The attempted calls on which the mailer succeeded: the emails that
were actually handed to the transport. -/
def dispatched (mailer : SendCall → Except String Unit)
    (attempts : List SendCall) : List SendCall :=
  attempts.filter fun c =>
    match mailer c with
    | .ok _ => true
    | .error _ => false

/-- Authenticated-user marker carried by a request, as probed by
`rate_limit_key` in `config/throttle.py`. -/
structure UserMarker where
  id : Nat
  is_authenticated : Bool
deriving DecidableEq

/-- The request data `rate_limit_key` inspects.  The two probe locations
of the source (`request.state.user`, then `request.scope` user) are
collapsed into one optional user, since only the first hit is used. -/
structure RequestCtx where
  user : Option UserMarker
  remote_address : String
deriving DecidableEq

/-- Function `rate_limit_key` (`config/throttle.py`): the stable id of an
authenticated user, otherwise the remote network address. -/
def rate_limit_key (req : RequestCtx) : String :=
  match req.user with
  | some u => if u.is_authenticated then toString u.id else req.remote_address
  | none => req.remote_address

/-- Limiter state: identities of accepted requests with their times (in
seconds). -/
abbrev LimiterState := List (String × Nat)

/-- Modelled from the spec: the slowapi `Limiter` internals are external
to this repository and the spec consumes them as a black box; the
configured quota string is 1/minute (`contact/routes.py`), which the
spec reads as one request per identity per rolling 60-second window. -/
def allowRequest (st : LimiterState) (key : String) (now : Nat) : Bool :=
  st.all fun h => h.1 != key || decide (h.2 + 60 ≤ now)

/-- Responses of the FastAPI variant: the slowapi handler produces 429,
request-validation failures produce 422, success produces 201.  No
transport-failure response exists in this variant. -/
inductive FastResponse where
  | rateLimited
  | unprocessable (errors : List (String × String))
  | created (message : String)
deriving DecidableEq

/-- HTTP status code of a `FastResponse`. -/
def FastResponse.status : FastResponse → Nat
  | .rateLimited => 429
  | .unprocessable _ => 422
  | .created _ => 201

/-- The FastAPI endpoint `contact` (`contact/routes.py`) together with
its gate wiring (`config/asgi.py`): the slowapi middleware checks the
quota for `rate_limit_key req` first and counts the hit; only then does
request validation run; on success the two sends are scheduled as
background tasks and the fixed 201 body is returned.  Returns the
response, the scheduled sends in order, and the new limiter state. -/
def contact_route (dfe : String) (st : LimiterState) (req : RequestCtx)
    (now : Nat) (p : Payload) : FastResponse × List SendCall × LimiterState :=
  let key := rate_limit_key req
  if allowRequest st key now then
    let st' := (key, now) :: st
    match Contact_validate p with
    | .error errs => (.unprocessable errs, [], st')
    | .ok c =>
        (.created "Correo(s) enviado(s) con éxito",
         [adminCall dfe c, confCall dfe c], st')
  else (.rateLimited, [], st)

/-- Running the scheduled background tasks afterwards: each scheduled
call is attempted once, fire-and-forget. -/
def runTasks (mailer : SendCall → Except String Unit)
    (calls : List SendCall) : List (Except String Unit) :=
  calls.map mailer

/-- The deferred variant end to end: the response is computed and
returned before the background tasks run. -/
def deferredRun (dfe : String) (mailer : SendCall → Except String Unit)
    (st : LimiterState) (req : RequestCtx) (now : Nat) (p : Payload) :
    FastResponse × List (Except String Unit) × LimiterState :=
  let r := contact_route dfe st req now p
  (r.1, runTasks mailer r.2.1, r.2.2)

/-- Well-formedness exactly as the first testable property words it: all
five fields present and the email matching the email grammar (note: this
wording does not require non-emptiness). -/
def wellFormedC1 (p : Payload) : Bool :=
  p.name.isSome && p.apellido.isSome && p.phone.isSome && p.message.isSome &&
  (match p.email with
   | some e => isValidEmail e
   | none => false)

/-- Substring occurrence: `sub` occurs verbatim (unmodified, contiguously) inside `s`. -/
def containsStr (sub s : String) : Prop :=
  ∃ pre post, s = pre ++ (sub ++ post)

/-- A mailer whose transport always succeeds. -/
def okMailer : SendCall → Except String Unit := fun _ => .ok ()

/-- A mailer whose transport always fails with the message of the test
suite (`SMTP down`). -/
def failMailer : SendCall → Except String Unit := fun _ => .error "SMTP down"

/-- The well-formed payload of the test suite (`contact/tests.py`). -/
def wPayload : Payload :=
  ⟨some "John", some "Doe", some "john@example.com",
   some "312323232", some "Hello"⟩

/-- The validated data corresponding to `wPayload`. -/
def wContact : ValidContact :=
  ⟨"John", "Doe", "john@example.com", "312323232", "Hello"⟩

/-- An anonymous request from a fixed remote address. -/
def wReq : RequestCtx := ⟨none, "10.0.0.1"⟩

/-- The fields a payload offends against in the sense of claim C2:
fields that are absent, plus the email field when it is present but does
not match the email grammar. -/
def offendingFields (p : Payload) : List String :=
  (if p.name = none then ["name"] else []) ++
  (if p.apellido = none then ["apellido"] else []) ++
  (match p.email with
   | none => ["email"]
   | some e => if isValidEmail e then [] else ["email"]) ++
  (if p.phone = none then ["phone"] else []) ++
  (if p.message = none then ["message"] else [])

/-- A payload whose name field is present but empty. -/
def pEmptyName : Payload :=
  ⟨some "", some "Doe", some "john@example.com", some "312323232", some "Hello"⟩

/-- A payload whose email field is present but empty. -/
def pEmptyEmail : Payload :=
  ⟨some "John", some "Doe", some "", some "312323232", some "Hello"⟩

/-- A payload whose phone field is present but empty. -/
def pEmptyPhone : Payload :=
  ⟨some "John", some "Doe", some "john@example.com", some "", some "Hello"⟩

/-- A payload whose apellido field is present but empty. -/
def pEmptyApellido : Payload :=
  ⟨some "John", some "", some "john@example.com", some "312323232", some "Hello"⟩

example : isValidEmail "john@example.com" = true := by decide
example : isValidEmail "" = false := by decide
example : ContactSerializer_validate wPayload = .ok wContact := rfl
example : Contact_validate wPayload = .ok wContact := rfl
example : ContactAPIView_post "a@b.co" okMailer wPayload =
    (.created "Correo(s) enviado(s) con éxito",
     [adminCall "a@b.co" wContact, confCall "a@b.co" wContact]) := by decide

/-! ### Helper lemmas about the validators -/

theorem serializer_ok_fields (p : Payload) (c : ValidContact)
    (hv : ContactSerializer_validate p = .ok c) :
    serializerFieldErrors p = [] ∧
    c = ⟨p.name.getD "", p.apellido.getD "", p.email.getD "",
         p.phone.getD "", p.message.getD ""⟩ := by
  unfold ContactSerializer_validate at hv
  split at hv
  · next h => injection hv with hv; exact ⟨h, hv.symm⟩
  · injection hv

theorem pydantic_ok_fields (p : Payload) (c : ValidContact)
    (hv : Contact_validate p = .ok c) :
    pydanticFieldErrors p = [] ∧
    c = ⟨p.name.getD "", p.apellido.getD "", p.email.getD "",
         p.phone.getD "", p.message.getD ""⟩ := by
  unfold Contact_validate at hv
  split at hv
  · next h => injection hv with hv; exact ⟨h, hv.symm⟩
  · injection hv

theorem pydantic_nil_of_serializer_nil (p : Payload)
    (h : serializerFieldErrors p = []) : pydanticFieldErrors p = [] := by
  rcases p with ⟨n, a, e, ph, m⟩
  cases n <;> cases a <;> cases e <;> cases ph <;> cases m <;>
    simp_all [serializerFieldErrors, pydanticFieldErrors] <;>
    split_ifs at h ⊢ <;> simp_all

theorem pydantic_ok_of_serializer_ok (p : Payload) (c : ValidContact)
    (hv : ContactSerializer_validate p = .ok c) :
    Contact_validate p = .ok c := by
  obtain ⟨hnil, hc⟩ := serializer_ok_fields p c hv
  unfold Contact_validate
  rw [if_pos (pydantic_nil_of_serializer_nil p hnil), hc]

theorem serializer_keys_cover (p : Payload) :
    ∀ f ∈ offendingFields p, f ∈ (serializerFieldErrors p).map Prod.fst := by
  have hemp : isValidEmail "" = false := rfl
  rcases p with ⟨n, a, e, ph, m⟩
  cases n <;> cases a <;> cases e <;> cases ph <;> cases m <;>
    simp_all [offendingFields, serializerFieldErrors] <;>
    split_ifs <;> simp_all

theorem pydantic_keys_cover (p : Payload) :
    ∀ f ∈ offendingFields p, f ∈ (pydanticFieldErrors p).map Prod.fst := by
  have hemp : isValidEmail "" = false := rfl
  rcases p with ⟨n, a, e, ph, m⟩
  cases n <;> cases a <;> cases e <;> cases ph <;> cases m <;>
    simp_all [offendingFields, pydanticFieldErrors]

theorem offending_mem_of_bad (p : Payload)
    (hbad : p.name = none ∨ p.apellido = none ∨ p.phone = none ∨
            p.message = none ∨ p.email = none ∨
            (∃ e, p.email = some e ∧ isValidEmail e = false)) :
    ∃ f, f ∈ offendingFields p := by
  rcases hbad with h | h | h | h | h | ⟨e, he, hv⟩
  · exact ⟨"name", by simp [offendingFields, h]⟩
  · exact ⟨"apellido", by simp [offendingFields, h]⟩
  · exact ⟨"phone", by simp [offendingFields, h]⟩
  · exact ⟨"message", by simp [offendingFields, h]⟩
  · exact ⟨"email", by simp [offendingFields, h]⟩
  · exact ⟨"email", by simp [offendingFields, he, hv]⟩

theorem serializer_ne_nil_of_bad (p : Payload)
    (hbad : p.name = none ∨ p.apellido = none ∨ p.phone = none ∨
            p.message = none ∨ p.email = none ∨
            (∃ e, p.email = some e ∧ isValidEmail e = false)) :
    serializerFieldErrors p ≠ [] := by
  obtain ⟨f, hf⟩ := offending_mem_of_bad p hbad
  have hmem := serializer_keys_cover p f hf
  intro h
  rw [h] at hmem
  simp at hmem

theorem pydantic_ne_nil_of_bad (p : Payload)
    (hbad : p.name = none ∨ p.apellido = none ∨ p.phone = none ∨
            p.message = none ∨ p.email = none ∨
            (∃ e, p.email = some e ∧ isValidEmail e = false)) :
    pydanticFieldErrors p ≠ [] := by
  obtain ⟨f, hf⟩ := offending_mem_of_bad p hbad
  have hmem := pydantic_keys_cover p f hf
  intro h
  rw [h] at hmem
  simp at hmem

/-! ### Helper lemmas about the two handlers -/

theorem post_of_invalid (dfe : String) (mailer : SendCall → Except String Unit)
    (p : Payload) (h : serializerFieldErrors p ≠ []) :
    ContactAPIView_post dfe mailer p =
      (.badRequest (serializerFieldErrors p), []) := by
  simp [ContactAPIView_post, ContactSerializer_validate, h]

theorem post_of_valid_ok (dfe : String) (mailer : SendCall → Except String Unit)
    (p : Payload) (c : ValidContact)
    (hv : ContactSerializer_validate p = .ok c)
    (h1 : mailer (adminCall dfe c) = .ok ())
    (h2 : mailer (confCall dfe c) = .ok ()) :
    ContactAPIView_post dfe mailer p =
      (.created "Correo(s) enviado(s) con éxito",
       [adminCall dfe c, confCall dfe c]) := by
  simp [ContactAPIView_post, hv, h1, h2]

theorem post_of_valid_failA (dfe : String) (mailer : SendCall → Except String Unit)
    (p : Payload) (c : ValidContact) (e : String)
    (hv : ContactSerializer_validate p = .ok c)
    (h1 : mailer (adminCall dfe c) = .error e) :
    ContactAPIView_post dfe mailer p =
      (.serverError ("Error al enviar correo: " ++ e), [adminCall dfe c]) := by
  simp [ContactAPIView_post, hv, h1]

theorem post_of_valid_failR (dfe : String) (mailer : SendCall → Except String Unit)
    (p : Payload) (c : ValidContact) (e : String)
    (hv : ContactSerializer_validate p = .ok c)
    (h1 : mailer (adminCall dfe c) = .ok ())
    (h2 : mailer (confCall dfe c) = .error e) :
    ContactAPIView_post dfe mailer p =
      (.serverError ("Error al enviar correo: " ++ e),
       [adminCall dfe c, confCall dfe c]) := by
  simp [ContactAPIView_post, hv, h1, h2]

theorem route_of_denied (dfe : String) (st : LimiterState) (req : RequestCtx)
    (now : Nat) (p : Payload)
    (h : allowRequest st (rate_limit_key req) now = false) :
    contact_route dfe st req now p = (.rateLimited, [], st) := by
  simp [contact_route, h]

theorem route_of_invalid (dfe : String) (st : LimiterState) (req : RequestCtx)
    (now : Nat) (p : Payload)
    (hallow : allowRequest st (rate_limit_key req) now = true)
    (h : pydanticFieldErrors p ≠ []) :
    contact_route dfe st req now p =
      (.unprocessable (pydanticFieldErrors p), [],
       (rate_limit_key req, now) :: st) := by
  simp [contact_route, hallow, Contact_validate, h]

theorem route_of_valid (dfe : String) (st : LimiterState) (req : RequestCtx)
    (now : Nat) (p : Payload) (c : ValidContact)
    (hallow : allowRequest st (rate_limit_key req) now = true)
    (hv : Contact_validate p = .ok c) :
    contact_route dfe st req now p =
      (.created "Correo(s) enviado(s) con éxito",
       [adminCall dfe c, confCall dfe c],
       (rate_limit_key req, now) :: st) := by
  simp [contact_route, hallow, hv]

theorem route_status_ne_500 (dfe : String) (st : LimiterState)
    (req : RequestCtx) (now : Nat) (p : Payload) :
    ((contact_route dfe st req now p).1).status ≠ 500 := by
  cases hv : Contact_validate p <;>
    by_cases h : allowRequest st (rate_limit_key req) now = true <;>
    simp [contact_route, h, hv, FastResponse.status]

/-! ### Claim C1 -/

/-- C1 (counterexample): the claim takes well-formed to mean all five
fields present with the email matching the email grammar.  A payload
whose name field is present but empty is well-formed in that sense, yet
the synchronous variant rejects it (the serializer requires non-blank
values) and performs zero mailer invocations instead of two. -/
theorem C1_counterexample :
    wellFormedC1 ⟨some "", some "Doe", some "john@example.com",
                  some "312323232", some "Hello"⟩ = true ∧
    ContactAPIView_post "admin@site.com" okMailer
        ⟨some "", some "Doe", some "john@example.com",
         some "312323232", some "Hello"⟩ =
      (.badRequest [("name", "This field may not be blank.")], []) := by
  exact ⟨rfl, rfl⟩

/-- C1 (amended): for every payload with all five fields present and
non-empty and the email matching the email grammar (equivalently,
accepted by the serializer), provided the transport raises on neither
send and, for the deferred variant, the request is not rate limited,
exactly two mailer invocations occur: first the plain-text send to the
administrator address, then the HTML send to the submitter address. -/
theorem C1_two_sends (dfe : String) (mailer : SendCall → Except String Unit)
    (st : LimiterState) (req : RequestCtx) (now : Nat)
    (p : Payload) (c : ValidContact)
    (hv : ContactSerializer_validate p = .ok c)
    (hm : ∀ sc, mailer sc = .ok ())
    (hallow : allowRequest st (rate_limit_key req) now = true) :
    (ContactAPIView_post dfe mailer p).2 = [adminCall dfe c, confCall dfe c] ∧
    (contact_route dfe st req now p).2.1 = [adminCall dfe c, confCall dfe c] ∧
    (adminCall dfe c).html = false ∧
    (adminCall dfe c).recipients = [dfe] ∧
    (confCall dfe c).html = true ∧
    (confCall dfe c).recipients = [c.email] ∧
    (∀ e, p.email = some e → c.email = e) := by
  have hpy := pydantic_ok_of_serializer_ok p c hv
  obtain ⟨hnil, hc⟩ := serializer_ok_fields p c hv
  refine ⟨?_, ?_, rfl, rfl, rfl, rfl, ?_⟩
  · rw [post_of_valid_ok dfe mailer p c hv (hm _) (hm _)]
  · rw [route_of_valid dfe st req now p c hallow hpy]
  · intro e he
    rw [hc]
    simp [he]

/-- C1 (witness): the amended statement at the concrete test payload. -/
theorem C1_two_sends_witness :
    (ContactAPIView_post "admin@site.com" okMailer wPayload).2 =
      [adminCall "admin@site.com" wContact, confCall "admin@site.com" wContact] ∧
    (contact_route "admin@site.com" [] wReq 0 wPayload).2.1 =
      [adminCall "admin@site.com" wContact, confCall "admin@site.com" wContact] ∧
    (adminCall "admin@site.com" wContact).html = false ∧
    (adminCall "admin@site.com" wContact).recipients = ["admin@site.com"] ∧
    (confCall "admin@site.com" wContact).html = true ∧
    (confCall "admin@site.com" wContact).recipients = [wContact.email] ∧
    (∀ e, wPayload.email = some e → wContact.email = e) :=
  C1_two_sends "admin@site.com" okMailer [] wReq 0 wPayload wContact
    rfl (fun _ => rfl) rfl

/-! ### Claim C2 -/

/-- C2: for every payload missing any of the five required fields, or
whose email field does not match the email grammar, the handler returns
the validation-failure outcome (status 400 in the synchronous variant,
status 422 in the deferred variant) carrying a field-to-message map that
includes every offending field, and zero mailer invocations occur; for
the deferred variant this holds whenever the request passes the rate
gate. -/
theorem C2_validation_failed (dfe : String)
    (mailer : SendCall → Except String Unit) (st : LimiterState)
    (req : RequestCtx) (now : Nat) (p : Payload)
    (hbad : p.name = none ∨ p.apellido = none ∨ p.phone = none ∨
            p.message = none ∨ p.email = none ∨
            (∃ e, p.email = some e ∧ isValidEmail e = false)) :
    (∃ errs, ContactAPIView_post dfe mailer p = (.badRequest errs, []) ∧
      (DjangoResponse.badRequest errs).status = 400 ∧
      ∀ f ∈ offendingFields p, f ∈ errs.map Prod.fst) ∧
    (allowRequest st (rate_limit_key req) now = true →
      ∃ errs, contact_route dfe st req now p =
          (.unprocessable errs, [], (rate_limit_key req, now) :: st) ∧
        (FastResponse.unprocessable errs).status = 422 ∧
        ∀ f ∈ offendingFields p, f ∈ errs.map Prod.fst) := by
  constructor
  · exact ⟨serializerFieldErrors p,
      post_of_invalid dfe mailer p (serializer_ne_nil_of_bad p hbad),
      rfl, serializer_keys_cover p⟩
  · intro hallow
    exact ⟨pydanticFieldErrors p,
      route_of_invalid dfe st req now p hallow (pydantic_ne_nil_of_bad p hbad),
      rfl, pydantic_keys_cover p⟩

/-- C2 (witness): the payload of the test suite that lacks the email
key is rejected by both variants with zero mailer invocations. -/
theorem C2_validation_failed_witness :
    (∃ errs, ContactAPIView_post "admin@site.com" okMailer
        ⟨some "John", some "Doe", none, some "312323232", some "Missing email!"⟩ =
        (.badRequest errs, []) ∧
      (DjangoResponse.badRequest errs).status = 400 ∧
      ∀ f ∈ offendingFields
          ⟨some "John", some "Doe", none, some "312323232", some "Missing email!"⟩,
        f ∈ errs.map Prod.fst) ∧
    (allowRequest [] (rate_limit_key wReq) 0 = true →
      ∃ errs, contact_route "admin@site.com" [] wReq 0
          ⟨some "John", some "Doe", none, some "312323232", some "Missing email!"⟩ =
          (.unprocessable errs, [], (rate_limit_key wReq, 0) :: []) ∧
        (FastResponse.unprocessable errs).status = 422 ∧
        ∀ f ∈ offendingFields
            ⟨some "John", some "Doe", none, some "312323232", some "Missing email!"⟩,
          f ∈ errs.map Prod.fst) :=
  C2_validation_failed "admin@site.com" okMailer [] wReq 0
    ⟨some "John", some "Doe", none, some "312323232", some "Missing email!"⟩
    (Or.inr (Or.inr (Or.inr (Or.inr (Or.inl rfl)))))

/-! ### Claim C3 -/

/-- C3: in the synchronous variant, if the mailer raises on either of
the two send calls, the handler returns the 500 send-failure outcome
whose error message is the fixed prefix followed by the underlying
transport error text, so the message always begins with the prefix
Error al enviar correo. -/
theorem C3_send_failed (dfe : String) (mailer : SendCall → Except String Unit)
    (p : Payload) (c : ValidContact) (e : String)
    (hv : ContactSerializer_validate p = .ok c)
    (hfail : mailer (adminCall dfe c) = .error e ∨
             (mailer (adminCall dfe c) = .ok () ∧
              mailer (confCall dfe c) = .error e)) :
    (ContactAPIView_post dfe mailer p).1 =
      .serverError ("Error al enviar correo: " ++ e) ∧
    ((ContactAPIView_post dfe mailer p).1).status = 500 ∧
    (∃ rest, "Error al enviar correo: " ++ e =
      "Error al enviar correo" ++ rest) := by
  have hlit : ("Error al enviar correo" : String) ++ ": " =
      "Error al enviar correo: " := by decide
  have hpre : ∃ rest, "Error al enviar correo: " ++ e =
      "Error al enviar correo" ++ rest := by
    refine ⟨": " ++ e, ?_⟩
    rw [← String.append_assoc, hlit]
  rcases hfail with h1 | ⟨h1, h2⟩
  · rw [post_of_valid_failA dfe mailer p c e hv h1]
    exact ⟨rfl, rfl, hpre⟩
  · rw [post_of_valid_failR dfe mailer p c e hv h1 h2]
    exact ⟨rfl, rfl, hpre⟩

/-- C3 (witness): with the always-failing transport of the test suite,
the view returns the 500 outcome with the prefixed message. -/
theorem C3_send_failed_witness :
    (ContactAPIView_post "admin@site.com" failMailer wPayload).1 =
      .serverError ("Error al enviar correo: " ++ "SMTP down") ∧
    ((ContactAPIView_post "admin@site.com" failMailer wPayload).1).status = 500 ∧
    (∃ rest, "Error al enviar correo: " ++ "SMTP down" =
      "Error al enviar correo" ++ rest) :=
  C3_send_failed "admin@site.com" failMailer wPayload wContact "SMTP down"
    rfl (Or.inl rfl)

/-! ### Claim C4 -/

/-- C4: for every payload accepted by validation whose sends succeed
(synchronous variant) or are successfully scheduled (deferred variant,
request not rate limited), the handler returns status 201 with the fixed
body message Correo(s) enviado(s) con éxito, in both variants. -/
theorem C4_success_response (dfe : String)
    (mailer : SendCall → Except String Unit) (st : LimiterState)
    (req : RequestCtx) (now : Nat) (p : Payload) (c : ValidContact)
    (hv : ContactSerializer_validate p = .ok c)
    (hm : ∀ sc, mailer sc = .ok ())
    (hallow : allowRequest st (rate_limit_key req) now = true) :
    (ContactAPIView_post dfe mailer p).1 =
      .created "Correo(s) enviado(s) con éxito" ∧
    ((ContactAPIView_post dfe mailer p).1).status = 201 ∧
    (contact_route dfe st req now p).1 =
      .created "Correo(s) enviado(s) con éxito" ∧
    ((contact_route dfe st req now p).1).status = 201 := by
  have hpy := pydantic_ok_of_serializer_ok p c hv
  rw [post_of_valid_ok dfe mailer p c hv (hm _) (hm _)]
  rw [route_of_valid dfe st req now p c hallow hpy]
  exact ⟨rfl, rfl, rfl, rfl⟩

/-- C4 (witness): the success scenario of the test suite. -/
theorem C4_success_response_witness :
    (ContactAPIView_post "admin@site.com" okMailer wPayload).1 =
      .created "Correo(s) enviado(s) con éxito" ∧
    ((ContactAPIView_post "admin@site.com" okMailer wPayload).1).status = 201 ∧
    (contact_route "admin@site.com" [] wReq 0 wPayload).1 =
      .created "Correo(s) enviado(s) con éxito" ∧
    ((contact_route "admin@site.com" [] wReq 0 wPayload).1).status = 201 :=
  C4_success_response "admin@site.com" okMailer [] wReq 0 wPayload wContact
    rfl (fun _ => rfl) rfl

/-! ### Claim C5 -/

/-- C5: the administrator email body contains the submitter name,
surname, email, phone and message strings verbatim: each field value
appears unmodified as a contiguous substring of the composed plain-text
body, for every payload. -/
theorem C5_admin_body_verbatim (dfe name apellido email phone message : String) :
    containsStr name (info_admin dfe name apellido email phone message).body ∧
    containsStr apellido (info_admin dfe name apellido email phone message).body ∧
    containsStr email (info_admin dfe name apellido email phone message).body ∧
    containsStr phone (info_admin dfe name apellido email phone message).body ∧
    containsStr message (info_admin dfe name apellido email phone message).body := by
  refine ⟨⟨"Nombre: ",
           " " ++ apellido ++ "\n" ++ "Email: " ++ email ++ "\n" ++
           "Teléfono: " ++ phone ++ "\n\n" ++ "Mensaje:\n" ++ message, ?_⟩,
          ⟨"Nombre: " ++ name ++ " ",
           "\n" ++ "Email: " ++ email ++ "\n" ++
           "Teléfono: " ++ phone ++ "\n\n" ++ "Mensaje:\n" ++ message, ?_⟩,
          ⟨"Nombre: " ++ name ++ " " ++ apellido ++ "\n" ++ "Email: ",
           "\n" ++ "Teléfono: " ++ phone ++ "\n\n" ++ "Mensaje:\n" ++ message, ?_⟩,
          ⟨"Nombre: " ++ name ++ " " ++ apellido ++ "\n" ++ "Email: " ++
           email ++ "\n" ++ "Teléfono: ",
           "\n\n" ++ "Mensaje:\n" ++ message, ?_⟩,
          ⟨"Nombre: " ++ name ++ " " ++ apellido ++ "\n" ++ "Email: " ++
           email ++ "\n" ++ "Teléfono: " ++ phone ++ "\n\n" ++ "Mensaje:\n",
           "", ?_⟩⟩ <;>
    simp [info_admin, envio_email, String.append_assoc, String.append_empty]

/-! ### Claim C6 -/

theorem serializer_ne_nil_of_blank (p : Payload)
    (h : p.name = some "" ∨ p.apellido = some "" ∨ p.email = some "" ∨
         p.phone = some "" ∨ p.message = some "") :
    serializerFieldErrors p ≠ [] := by
  rcases p with ⟨n, a, e, ph, m⟩
  rcases h with h | h | h | h | h <;> subst h <;> simp [serializerFieldErrors]

theorem pydantic_ne_nil_of_empty_email (p : Payload) (h : p.email = some "") :
    pydanticFieldErrors p ≠ [] := by
  have hemp : isValidEmail "" = false := rfl
  rcases p with ⟨n, a, e, ph, m⟩
  subst h
  simp [pydanticFieldErrors, hemp]

theorem pydantic_nil_of_present_valid (p : Payload) (e : String)
    (he : p.email = some e) (hval : isValidEmail e = true)
    (hn : p.name.isSome = true) (ha : p.apellido.isSome = true)
    (hp : p.phone.isSome = true) (hm : p.message.isSome = true) :
    pydanticFieldErrors p = [] := by
  rcases p with ⟨n, a, em, ph, m⟩
  subst he
  cases n <;> cases a <;> cases ph <;> cases m <;>
    simp_all [pydanticFieldErrors, hval]

/-- C6 (counterexample): the claim asserts that a payload with a
present-but-empty field is always rejected with the validation-failure
outcome and zero emails, but the deferred variant accepts an empty name
(the pydantic field is a plain str) and schedules both sends. -/
theorem C6_counterexample :
    (contact_route "admin@site.com" [] wReq 0 pEmptyName).1 =
      .created "Correo(s) enviado(s) con éxito" ∧
    ((contact_route "admin@site.com" [] wReq 0 pEmptyName).2.1).length = 2 :=
  ⟨rfl, rfl⟩

/-- C6 (amended): in the synchronous variant any present-but-empty
field yields the validation-failure outcome with zero mailer
invocations; in the deferred variant a present-but-empty email is
rejected (it fails the email grammar), but an empty name, apellido,
phone or message value, with all five fields present and a grammatical
email, passes validation and two sends are scheduled. -/
theorem C6_empty_handling :
    (∀ (dfe : String) (mailer : SendCall → Except String Unit) (p : Payload),
      (p.name = some "" ∨ p.apellido = some "" ∨ p.email = some "" ∨
       p.phone = some "" ∨ p.message = some "") →
      ContactAPIView_post dfe mailer p =
        (.badRequest (serializerFieldErrors p), [])) ∧
    (∀ (dfe : String) (st : LimiterState) (req : RequestCtx) (now : Nat)
       (p : Payload),
      allowRequest st (rate_limit_key req) now = true →
      p.email = some "" →
      contact_route dfe st req now p =
        (.unprocessable (pydanticFieldErrors p), [],
         (rate_limit_key req, now) :: st)) ∧
    (∀ (dfe : String) (st : LimiterState) (req : RequestCtx) (now : Nat)
       (p : Payload) (e : String),
      allowRequest st (rate_limit_key req) now = true →
      (p.name = some "" ∨ p.apellido = some "" ∨ p.phone = some "" ∨
       p.message = some "") →
      p.email = some e → isValidEmail e = true →
      p.name.isSome = true → p.apellido.isSome = true →
      p.phone.isSome = true → p.message.isSome = true →
      (contact_route dfe st req now p).1 =
        .created "Correo(s) enviado(s) con éxito" ∧
      ((contact_route dfe st req now p).2.1).length = 2) := by
  refine ⟨?_, ?_, ?_⟩
  · intro dfe mailer p h
    exact post_of_invalid dfe mailer p (serializer_ne_nil_of_blank p h)
  · intro dfe st req now p hallow he
    exact route_of_invalid dfe st req now p hallow
      (pydantic_ne_nil_of_empty_email p he)
  · intro dfe st req now p e hallow _hblank he hval hn ha hp hm
    have hnil := pydantic_nil_of_present_valid p e he hval hn ha hp hm
    have hok : Contact_validate p =
        .ok ⟨p.name.getD "", p.apellido.getD "", p.email.getD "",
             p.phone.getD "", p.message.getD ""⟩ := by
      unfold Contact_validate
      rw [if_pos hnil]
    rw [route_of_valid dfe st req now p _ hallow hok]
    exact ⟨rfl, rfl⟩

/-- C6 (witness): the amended statement at concrete payloads with an
empty phone, an empty email, and an empty apellido respectively. -/
theorem C6_empty_handling_witness :
    ContactAPIView_post "admin@site.com" okMailer pEmptyPhone =
      (.badRequest (serializerFieldErrors pEmptyPhone), []) ∧
    contact_route "admin@site.com" [] wReq 0 pEmptyEmail =
      (.unprocessable (pydanticFieldErrors pEmptyEmail), [],
       (rate_limit_key wReq, 0) :: []) ∧
    (contact_route "admin@site.com" [] wReq 0 pEmptyApellido).1 =
      .created "Correo(s) enviado(s) con éxito" ∧
    ((contact_route "admin@site.com" [] wReq 0 pEmptyApellido).2.1).length = 2 :=
  ⟨C6_empty_handling.1 "admin@site.com" okMailer pEmptyPhone
     (Or.inr (Or.inr (Or.inr (Or.inl rfl)))),
   C6_empty_handling.2.1 "admin@site.com" [] wReq 0 pEmptyEmail rfl rfl,
   C6_empty_handling.2.2 "admin@site.com" [] wReq 0 pEmptyApellido
     "john@example.com" rfl (Or.inr (Or.inl rfl)) rfl (by decide)
     rfl rfl rfl rfl⟩

/-! ### Claim C7 -/

/-- C7: if an identity had a request admitted at time t (which the gate
records in the limiter state no matter how the request then fares), any
second request from the same identity strictly within the 60-second
window is rejected with the distinct rate-limited outcome (status 429),
before schema validation runs (the result is the same for every payload)
and with zero emails sent or scheduled. -/
theorem C7_second_request_rate_limited (dfe : String) (st : LimiterState)
    (req : RequestCtx) (t t' : Nat)
    (h1 : allowRequest st (rate_limit_key req) t = true)
    (hwin : t' < t + 60) :
    (∀ p1 : Payload, (contact_route dfe st req t p1).2.2 =
      (rate_limit_key req, t) :: st) ∧
    (∀ p2 : Payload,
      contact_route dfe ((rate_limit_key req, t) :: st) req t' p2 =
        (.rateLimited, [], (rate_limit_key req, t) :: st)) ∧
    FastResponse.rateLimited.status = 429 ∧
    (∀ errs, FastResponse.rateLimited ≠ .unprocessable errs) ∧
    (∀ m, FastResponse.rateLimited ≠ .created m) := by
  have hdeny : allowRequest ((rate_limit_key req, t) :: st)
      (rate_limit_key req) t' = false := by
    have hlt : ¬ (t + 60 ≤ t') := by omega
    simp [allowRequest, hlt]
  refine ⟨?_, ?_, rfl, ?_, ?_⟩
  · intro p1
    cases hv : Contact_validate p1 <;> simp [contact_route, h1, hv]
  · intro p2
    exact route_of_denied dfe _ req t' p2 hdeny
  · intro errs h
    injection h
  · intro m h
    injection h

/-- C7 (witness): an anonymous identity admitted at time 0 and retrying
at time 30 with the valid test payload is rejected. -/
theorem C7_second_request_rate_limited_witness :
    (∀ p1 : Payload, (contact_route "admin@site.com" [] wReq 0 p1).2.2 =
      (rate_limit_key wReq, 0) :: []) ∧
    (∀ p2 : Payload,
      contact_route "admin@site.com" ((rate_limit_key wReq, 0) :: []) wReq 30 p2 =
        (.rateLimited, [], (rate_limit_key wReq, 0) :: [])) ∧
    FastResponse.rateLimited.status = 429 ∧
    (∀ errs, FastResponse.rateLimited ≠ .unprocessable errs) ∧
    (∀ m, FastResponse.rateLimited ≠ .created m) :=
  C7_second_request_rate_limited "admin@site.com" [] wReq 0 30 rfl
    (by omega)

/-! ### Claim C8 -/

/-- C8: in the deferred variant, for every payload that passes the gate
and validation the client receives the 201 success response, and the
response is unchanged no matter how the background sends later fare (the
mailer is arbitrary and may fail on every call); moreover no reachable
response of this variant has status 500, so the send-failure outcome can
never be observed by the client. -/
theorem C8_deferred_hides_send_failure (dfe : String)
    (mailer : SendCall → Except String Unit) (st : LimiterState)
    (req : RequestCtx) (now : Nat) (p : Payload) (c : ValidContact)
    (hallow : allowRequest st (rate_limit_key req) now = true)
    (hv : Contact_validate p = .ok c) :
    (contact_route dfe st req now p).1 =
      .created "Correo(s) enviado(s) con éxito" ∧
    (deferredRun dfe mailer st req now p).1 =
      .created "Correo(s) enviado(s) con éxito" ∧
    (∀ (st2 : LimiterState) (req2 : RequestCtx) (now2 : Nat) (p2 : Payload),
      ((contact_route dfe st2 req2 now2 p2).1).status ≠ 500) := by
  have hr := route_of_valid dfe st req now p c hallow hv
  refine ⟨?_, ?_, ?_⟩
  · rw [hr]
  · unfold deferredRun
    rw [hr]
  · intro st2 req2 now2 p2
    exact route_status_ne_500 dfe st2 req2 now2 p2

/-- C8 (witness): the success scenario under the always-failing
transport still yields the 201 body. -/
theorem C8_deferred_hides_send_failure_witness :
    (contact_route "admin@site.com" [] wReq 0 wPayload).1 =
      .created "Correo(s) enviado(s) con éxito" ∧
    (deferredRun "admin@site.com" failMailer [] wReq 0 wPayload).1 =
      .created "Correo(s) enviado(s) con éxito" ∧
    (∀ (st2 : LimiterState) (req2 : RequestCtx) (now2 : Nat) (p2 : Payload),
      ((contact_route "admin@site.com" st2 req2 now2 p2).1).status ≠ 500) :=
  C8_deferred_hides_send_failure "admin@site.com" failMailer [] wReq 0
    wPayload wContact rfl rfl

/-! ### Claim C9 -/

/-- C9: in the synchronous variant the send-failure outcome is not
atomic: the admin send is attempted strictly before the confirmation
send; if the admin send raises, the only attempt is the admin call, so
zero emails are dispatched and the confirmation call is never attempted;
if the admin send succeeds and the confirmation send raises, the handler
returns the 500 outcome even though the admin email was already
dispatched. -/
theorem C9_send_failure_not_atomic (dfe : String)
    (mailer : SendCall → Except String Unit) (p : Payload) (c : ValidContact)
    (hv : ContactSerializer_validate p = .ok c) :
    (∀ e, mailer (adminCall dfe c) = .error e →
      ContactAPIView_post dfe mailer p =
        (.serverError ("Error al enviar correo: " ++ e), [adminCall dfe c]) ∧
      dispatched mailer [adminCall dfe c] = [] ∧
      confCall dfe c ∉ [adminCall dfe c]) ∧
    (∀ e, mailer (adminCall dfe c) = .ok () →
      mailer (confCall dfe c) = .error e →
      ContactAPIView_post dfe mailer p =
        (.serverError ("Error al enviar correo: " ++ e),
         [adminCall dfe c, confCall dfe c]) ∧
      dispatched mailer [adminCall dfe c, confCall dfe c] =
        [adminCall dfe c]) := by
  have hsub : confCall dfe c ≠ adminCall dfe c := by
    intro h
    have hs := congrArg SendCall.subject h
    have h1 : (confCall dfe c).subject =
        "Confirmación de recepción de mensaje" := rfl
    have h2 : (adminCall dfe c).subject = "Nuevo mensaje de contacto" := rfl
    rw [h1, h2] at hs
    exact absurd hs (by decide)
  constructor
  · intro e hA
    refine ⟨post_of_valid_failA dfe mailer p c e hv hA, ?_, ?_⟩
    · simp [dispatched, hA]
    · simp [hsub]
  · intro e hA hR
    refine ⟨post_of_valid_failR dfe mailer p c e hv hA hR, ?_⟩
    simp [dispatched, hA, hR]

/-- C9 (witness): the statement at the test payload with the
always-failing transport, whose first failing call is the admin send. -/
theorem C9_send_failure_not_atomic_witness :
    (∀ e, failMailer (adminCall "admin@site.com" wContact) = .error e →
      ContactAPIView_post "admin@site.com" failMailer wPayload =
        (.serverError ("Error al enviar correo: " ++ e),
         [adminCall "admin@site.com" wContact]) ∧
      dispatched failMailer [adminCall "admin@site.com" wContact] = [] ∧
      confCall "admin@site.com" wContact ∉
        [adminCall "admin@site.com" wContact]) ∧
    (∀ e, failMailer (adminCall "admin@site.com" wContact) = .ok () →
      failMailer (confCall "admin@site.com" wContact) = .error e →
      ContactAPIView_post "admin@site.com" failMailer wPayload =
        (.serverError ("Error al enviar correo: " ++ e),
         [adminCall "admin@site.com" wContact,
          confCall "admin@site.com" wContact]) ∧
      dispatched failMailer
          [adminCall "admin@site.com" wContact,
           confCall "admin@site.com" wContact] =
        [adminCall "admin@site.com" wContact]) :=
  C9_send_failure_not_atomic "admin@site.com" failMailer wPayload wContact rfl

/-! ### Claim C10 -/

/-- C10: the configured administrator address coincides with the
configured From address: for every payload accepted by validation, the
admin notification recipient list is exactly the singleton containing
DEFAULT_FROM_EMAIL, which is also the From address of both outgoing
emails, in both variants. -/
theorem C10_admin_recipient_is_default_from (dfe : String)
    (mailer : SendCall → Except String Unit) (st : LimiterState)
    (req : RequestCtx) (now : Nat) (p : Payload) (c : ValidContact)
    (hv : ContactSerializer_validate p = .ok c)
    (hm : ∀ sc, mailer sc = .ok ())
    (hallow : allowRequest st (rate_limit_key req) now = true) :
    (ContactAPIView_post dfe mailer p).2 = [adminCall dfe c, confCall dfe c] ∧
    (contact_route dfe st req now p).2.1 =
      [adminCall dfe c, confCall dfe c] ∧
    (adminCall dfe c).recipients = [dfe] ∧
    (adminCall dfe c).fromEmail = dfe ∧
    (confCall dfe c).fromEmail = dfe := by
  have hpy := pydantic_ok_of_serializer_ok p c hv
  refine ⟨?_, ?_, rfl, rfl, rfl⟩
  · rw [post_of_valid_ok dfe mailer p c hv (hm _) (hm _)]
  · rw [route_of_valid dfe st req now p c hallow hpy]

/-- C10 (witness): the statement at the concrete test payload. -/
theorem C10_admin_recipient_is_default_from_witness :
    (ContactAPIView_post "admin@site.com" okMailer wPayload).2 =
      [adminCall "admin@site.com" wContact, confCall "admin@site.com" wContact] ∧
    (contact_route "admin@site.com" [] wReq 0 wPayload).2.1 =
      [adminCall "admin@site.com" wContact, confCall "admin@site.com" wContact] ∧
    (adminCall "admin@site.com" wContact).recipients = ["admin@site.com"] ∧
    (adminCall "admin@site.com" wContact).fromEmail = "admin@site.com" ∧
    (confCall "admin@site.com" wContact).fromEmail = "admin@site.com" :=
  C10_admin_recipient_is_default_from "admin@site.com" okMailer [] wReq 0
    wPayload wContact rfl (fun _ => rfl) rfl
